import Mathlib

/-
Verification development for the PyShock TShock REST client
(src/pyshock/tshock.py and src/pyshock/enums.py).

The embedding models Python values that flow into the URL builder and the
response-validation primitive as a small inductive type, HTTP interaction as
an oracle describing what the server/transport did, and exceptions as
explicit outcome constructors, distinguishing the typed ApiException from
untyped Python exceptions such as KeyError, TypeError and the JSON decode
error.
-/

/-- A Python value as it appears in this client: strings, booleans, and enum
members. Python str of an enum member renders as ClassName.MemberName. -/
inductive PyVal where
  | str (s : String)
  | boolean (b : Bool)
  | enumMember (cls mem : String)
deriving DecidableEq

/-- Python str() on the values above: a string is itself, a bool renders as
True or False, an enum member renders as ClassName.MemberName. -/
def pyStr : PyVal → String
  | PyVal.str s => s
  | PyVal.boolean b => if b then "True" else "False"
  | PyVal.enumMember cls mem => cls ++ "." ++ mem

/-- Whether the value is a Python str instance. -/
def PyVal.isStr : PyVal → Bool
  | PyVal.str _ => true
  | _ => false

/-- A decoded JSON object, the response envelope: an insertion-ordered
mapping from field names to values. -/
abbrev Envelope := List (String × PyVal)

/-- UserLookupType from src/pyshock/enums.py. -/
inductive UserLookupType where
  | ID
  | Name
deriving DecidableEq

/-- The literal string constant of a UserLookupType member (its .value). -/
def UserLookupType.value : UserLookupType → String
  | UserLookupType.ID => "id"
  | UserLookupType.Name => "name"

/-- BanLookupType from src/pyshock/enums.py. -/
inductive BanLookupType where
  | Name
  | IP
deriving DecidableEq

/-- The literal string constant of a BanLookupType member (its .value). -/
def BanLookupType.value : BanLookupType → String
  | BanLookupType.Name => "name"
  | BanLookupType.IP => "ip"

/-- The Python attribute name of a BanLookupType member, used when str()
renders the member itself as BanLookupType.MemberName. -/
def BanLookupType.memberName : BanLookupType → String
  | BanLookupType.Name => "Name"
  | BanLookupType.IP => "IP"

/-- Characters urllib.parse never percent-encodes: ASCII letters, digits,
and the four marks underscore, dot, dash, tilde. -/
def isAlwaysSafe (c : Char) : Bool :=
  c.isAlpha || c.isDigit || c == '_' || c == '.' || c == '-' || c == '~'

/-- Uppercase hexadecimal digit for a value below 16. -/
def hexDigitChar (n : Nat) : Char :=
  if n < 10 then Char.ofNat (48 + n) else Char.ofNat (55 + n)

/-- Percent-encoding of one byte, uppercase hex as urllib produces. -/
def percentByte (b : Nat) : String :=
  "%" ++ String.mk [hexDigitChar (b / 16), hexDigitChar (b % 16)]

/-- The UTF-8 bytes of a character, as Python encodes non-safe characters
before percent-encoding them. -/
def utf8Bytes (c : Char) : List Nat :=
  let n := c.toNat
  if n < 128 then [n]
  else if n < 2048 then [192 + n / 64, 128 + n % 64]
  else if n < 65536 then [224 + n / 4096, 128 + n / 64 % 64, 128 + n % 64]
  else [240 + n / 262144, 128 + n / 4096 % 64, 128 + n / 64 % 64, 128 + n % 64]

/-- urllib.parse.quote_plus on one character: space becomes a plus sign,
always-safe characters pass through, everything else is percent-encoded
bytewise. -/
def quotePlusChar (c : Char) : String :=
  if c == ' ' then "+"
  else if isAlwaysSafe c then String.mk [c]
  else String.join ((utf8Bytes c).map percentByte)

/-- urllib.parse.quote_plus with the default empty safe set, as
urllib.parse.urlencode applies it to every key and value. -/
def quotePlus (s : String) : String :=
  String.join (s.data.map quotePlusChar)

/-- urllib.parse.urlencode on an insertion-ordered mapping: each pair
becomes quote_plus(str(key)) = quote_plus(str(value)), joined by the
ampersand, in iteration order. -/
def urlencode (d : List (String × PyVal)) : String :=
  String.intercalate "&" (d.map fun kv => quotePlus kv.1 ++ "=" ++ quotePlus (pyStr kv.2))

/-- urllib.parse.urljoin restricted to the shapes RequestBuilder.get_url
produces: the base is http followed by host and port with an empty path, the
second argument is an absolute path, and urljoin then reduces to plain
concatenation. -/
def urljoinSimple (base path : String) : String := base ++ path

/-- Python dict item assignment d[k] = v: an existing key keeps its position
and gets the new value, a new key is appended at the end. -/
def dictSet : List (String × PyVal) → String → PyVal → List (String × PyVal)
  | [], k, v => [(k, v)]
  | kv :: rest, k, v => if kv.1 = k then (k, v) :: rest else kv :: dictSet rest k v

/-- The query parameters get_url hands to urlencode: the caller kwargs after
the assignment of the token entry to the current session token. -/
def finalParams (token : PyVal) (kwargs : List (String × PyVal)) : List (String × PyVal) :=
  dictSet kwargs "token" token

/-- Python str.join over the positional segments: raises TypeError (none)
when any element is not a str, otherwise the interleaved concatenation. -/
def pyStrJoin (sep : String) (items : List PyVal) : Option String :=
  if items.all PyVal.isStr then some (String.intercalate sep (items.map pyStr)) else none

/-- The RequestBuilder class: host, port (the source names the port
parameter post), and the current session token, a Python attribute that can
hold any value and starts as the empty string. -/
structure RequestBuilder where
  ip : String
  post : Nat
  token : PyVal
deriving DecidableEq

/-- RequestBuilder.get_url: base from host and port, path from the joined
positional segments (TypeError, i.e. none, when a segment is not a str),
then kwargs with the token entry assigned, urlencoded after the question
mark. -/
def RequestBuilder.get_url (rb : RequestBuilder) (args : List PyVal)
    (kwargs : List (String × PyVal)) : Option String :=
  match pyStrJoin "/" args with
  | none => none
  | some joined =>
      some (urljoinSimple ("http://" ++ rb.ip ++ ":" ++ toString rb.post) ("/" ++ joined)
              ++ "?" ++ urlencode (finalParams rb.token kwargs))

/-- The builder as TShock.init constructs it: token starts as the empty
string. -/
def mkBuilder (ip : String) (post : Nat) : RequestBuilder :=
  { ip := ip, post := post, token := PyVal.str "" }

/-- What the transport and the server did for one GET: the request itself
raised, the body was not parseable JSON, or a JSON envelope was decoded. -/
inductive Response where
  | netFail
  | nonJson
  | json (env : Envelope)
deriving DecidableEq

/-- Outcome of a call: a normal return, a raised ApiException with its
message, or an untyped Python exception escaping (named by its class). -/
inductive ReqOutcome where
  | ok (env : Envelope)
  | apiError (msg : String)
  | untyped (exc : String)
deriving DecidableEq

/-- Whether the outcome is a raised ApiException. -/
def ReqOutcome.isApiError : ReqOutcome → Bool
  | ReqOutcome.apiError _ => true
  | _ => false

/-- TShock._make_request. Only the GET itself sits inside the try block, so
a body that fails JSON decoding escapes as the untyped decode error; a
missing status key or, on the generic-error branch, a missing error key
escapes as KeyError; status 404 and statuses outside 200/400 raise
ApiException; 200 and 400 return the envelope unchanged. -/
def _make_request (resp : Response) : ReqOutcome :=
  match resp with
  | Response.netFail => ReqOutcome.apiError "An error occurred in making the request to the server."
  | Response.nonJson => ReqOutcome.untyped "JSONDecodeError"
  | Response.json results =>
      match results.lookup "status" with
      | none => ReqOutcome.untyped "KeyError"
      | some status =>
          if status = PyVal.str "404" then
            ReqOutcome.apiError "404 Error. Are you sure the server has REST enabled?"
          else if status = PyVal.str "200" ∨ status = PyVal.str "400" then
            ReqOutcome.ok results
          else
            match results.lookup "error" with
            | none => ReqOutcome.untyped "KeyError"
            | some err =>
                ReqOutcome.apiError ("Error in request. Server returned status: " ++ pyStr status
                  ++ " With error: " ++ pyStr err)

/-- TShock.get_token: performs the request for v2/token/create with the
password as a positional segment and username as a query parameter (the URL
build cannot raise, every positional segment is a str), then assigns
urls.token from the envelope token field. A missing token field raises
KeyError before the assignment; any raised error leaves the token
unchanged. -/
def get_token (rb : RequestBuilder) (user password : String) (resp : Response) :
    ReqOutcome × RequestBuilder :=
  let _url := rb.get_url [PyVal.str "v2", PyVal.str "token", PyVal.str "create", PyVal.str password]
    [("username", PyVal.str user)]
  match _make_request resp with
  | ReqOutcome.ok env =>
      match env.lookup "token" with
      | some v => (ReqOutcome.ok env, { rb with token := v })
      | none => (ReqOutcome.untyped "KeyError", rb)
  | out => (out, rb)

/-- Outcome of a method that normally returns a bool: the returned value, or
an exception that escaped (named by its class). -/
inductive BoolOutcome where
  | value (b : Bool)
  | raised (exc : String)
deriving DecidableEq

/-- TShock.get_token_status: try around _make_request catching only
ApiException, which becomes False; a normal return becomes True; any other
exception propagates. -/
def get_token_status (resp : Response) : BoolOutcome :=
  match _make_request resp with
  | ReqOutcome.ok _ => BoolOutcome.value true
  | ReqOutcome.apiError _ => BoolOutcome.value false
  | ReqOutcome.untyped e => BoolOutcome.raised e

/-- TShock.do_destroy_token: builds token/destroy with the current token as
a positional segment and performs the request; no field of the client is
written in either outcome. -/
def do_destroy_token (rb : RequestBuilder) (resp : Response) : ReqOutcome × RequestBuilder :=
  match rb.get_url [PyVal.str "token", PyVal.str "destroy", rb.token] [] with
  | none => (ReqOutcome.untyped "TypeError", rb)
  | some _ => (_make_request resp, rb)

/-- TShock.set_world_bloodmoon: the bool argument is passed as a positional
path segment, so the join inside get_url decides whether a request happens
at all. -/
def set_world_bloodmoon (rb : RequestBuilder) (bloodmoon : Bool) (resp : Response) : ReqOutcome :=
  match rb.get_url [PyVal.str "world", PyVal.str "bloodmoon", PyVal.boolean bloodmoon] [] with
  | none => ReqOutcome.untyped "TypeError"
  | some _ => _make_request resp

/-- TShock.set_world_autosaving: the bool argument is passed as a positional
path segment, as in set_world_bloodmoon. -/
def set_world_autosaving (rb : RequestBuilder) (autosave : Bool) (resp : Response) : ReqOutcome :=
  match rb.get_url [PyVal.str "v2", PyVal.str "world", PyVal.str "autosave", PyVal.str "state",
      PyVal.boolean autosave] [] with
  | none => ReqOutcome.untyped "TypeError"
  | some _ => _make_request resp

/-- The URL TShock.get_user_info builds: the lookup enum is unwrapped with
.value before being forwarded. -/
def get_user_info_url (rb : RequestBuilder) (lookup : UserLookupType) (user : String) :
    Option String :=
  rb.get_url [PyVal.str "v2", PyVal.str "users", PyVal.str "read"]
    [("type", PyVal.str lookup.value), ("user", PyVal.str user)]

/-- The URL TShock.get_ban_information builds: the lookup enum is unwrapped
with .value before being forwarded. -/
def get_ban_information_url (rb : RequestBuilder) (lookup : BanLookupType) (user : String) :
    Option String :=
  rb.get_url [PyVal.str "v2", PyVal.str "bans", PyVal.str "read"]
    [("type", PyVal.str lookup.value), ("ban", PyVal.str user)]

/-- The URL TShock.set_update_user builds: the lookup enum is unwrapped with
.value before being forwarded. -/
def set_update_user_url (rb : RequestBuilder) (user : String) (type : UserLookupType)
    (password group : String) : Option String :=
  rb.get_url [PyVal.str "v2", PyVal.str "users", PyVal.str "update"]
    [("user", PyVal.str user), ("type", PyVal.str type.value),
     ("password", PyVal.str password), ("group", PyVal.str group)]

/-- The URL TShock.do_delete_ban builds: the source forwards the enum member
itself (type=type, not type.value), so urlencode renders str of the member. -/
def do_delete_ban_url (rb : RequestBuilder) (type : BanLookupType) (ban : String) :
    Option String :=
  rb.get_url [PyVal.str "v2", PyVal.str "bans", PyVal.str "destroy"]
    [("ban", PyVal.str ban), ("type", PyVal.enumMember "BanLookupType" type.memberName)]

/-- One call in the life of a client, as far as the session token is
concerned: a get_token call with the server reply it received, or any other
endpoint call (none of which writes the token). -/
inductive Event where
  | getTokenCall (user password : String) (resp : Response)
  | otherCall

/-- The client state transition of one event. -/
def stepToken (rb : RequestBuilder) (e : Event) : RequestBuilder :=
  match e with
  | Event.getTokenCall user password resp => (get_token rb user password resp).2
  | Event.otherCall => rb

/-- The client state after a sequence of calls, starting from a freshly
constructed client. -/
def runState (rb : RequestBuilder) (es : List Event) : RequestBuilder :=
  es.foldl stepToken rb

/-- The token an event successfully extracted, when it was a get_token call
whose request returned an envelope containing a token field. -/
def authExtract : Event → Option PyVal
  | Event.getTokenCall _ _ resp =>
      match _make_request resp with
      | ReqOutcome.ok env => env.lookup "token"
      | _ => none
  | Event.otherCall => none

/-- Modelled from the spec side, for comparison with the code: the token the
spec says every URL must carry after a trace of calls, namely the token
extracted by the most recent successful authentication call, and the empty
string before any authentication. -/
def specToken (es : List Event) : PyVal :=
  (es.reverse.findSome? authExtract).getD (PyVal.str "")

theorem findSome_append {α β : Type} (f : α → Option β) (l m : List α) :
    (l ++ m).findSome? f =
      (match l.findSome? f with
       | some b => some b
       | none => m.findSome? f) := by
  induction l with
  | nil => simp [List.findSome?]
  | cons a l ih =>
    cases h : f a <;> simp [List.findSome?, h, ih]

theorem dictSet_lookup (d : List (String × PyVal)) (k : String) (v : PyVal) :
    (dictSet d k v).lookup k = some v := by
  induction d with
  | nil => simp [dictSet, List.lookup]
  | cons kv rest ih =>
    by_cases h : kv.1 = k
    · simp [dictSet, h, List.lookup]
    · simp only [dictSet, if_neg h]
      rw [List.lookup_cons]
      have hk : (k == kv.1) = false := by
        exact beq_eq_false_iff_ne.mpr fun hkk => h hkk.symm
      simp [hk, ih]

theorem all_isStr_map (args : List String) : (args.map PyVal.str).all PyVal.isStr = true := by
  induction args with
  | nil => rfl
  | cons a as ih => simp [PyVal.isStr, ih]

theorem map_pyStr_map_str (args : List String) : args.map (pyStr ∘ PyVal.str) = args := by
  induction args with
  | nil => rfl
  | cons a as ih => simp [pyStr, ih, Function.comp]

theorem get_url_strings (rb : RequestBuilder) (args : List String)
    (kwargs : List (String × PyVal)) :
    rb.get_url (args.map PyVal.str) kwargs =
      some (urljoinSimple ("http://" ++ rb.ip ++ ":" ++ toString rb.post)
              ("/" ++ String.intercalate "/" args)
            ++ "?" ++ urlencode (finalParams rb.token kwargs)) := by
  simp [RequestBuilder.get_url, pyStrJoin, all_isStr_map, map_pyStr_map_str]

theorem stepToken_fields (rb : RequestBuilder) (e : Event) :
    (stepToken rb e).token = (authExtract e).getD rb.token ∧
    (stepToken rb e).ip = rb.ip ∧ (stepToken rb e).post = rb.post := by
  cases e with
  | otherCall => simp [stepToken, authExtract]
  | getTokenCall u p resp =>
    cases hm : _make_request resp with
    | ok env =>
      cases ht : env.lookup "token" <;>
        simp [stepToken, get_token, authExtract, hm, ht]
    | apiError m => simp [stepToken, get_token, authExtract, hm]
    | untyped n => simp [stepToken, get_token, authExtract, hm]

theorem runState_fields (es : List Event) (rb : RequestBuilder) :
    (runState rb es).token = (es.reverse.findSome? authExtract).getD rb.token ∧
    (runState rb es).ip = rb.ip ∧ (runState rb es).post = rb.post := by
  induction es generalizing rb with
  | nil => simp [runState]
  | cons e es ih =>
    have hstep := stepToken_fields rb e
    have hrec := ih (stepToken rb e)
    have hrun : runState rb (e :: es) = runState (stepToken rb e) es := rfl
    refine ⟨?_, ?_, ?_⟩
    · rw [hrun, hrec.1, hstep.1, List.reverse_cons, findSome_append]
      cases h : es.reverse.findSome? authExtract with
      | some v => simp
      | none => cases h2 : authExtract e <;> simp [List.findSome?, h2]
    · rw [hrun, hrec.2.1, hstep.2.1]
    · rw [hrun, hrec.2.2, hstep.2.2]

/-- A fixed builder for the concrete test vectors of the spec: host 1.2.3.4,
port 7878, empty token. -/
def rbFixed : RequestBuilder := { ip := "1.2.3.4", post := 7878, token := PyVal.str "" }

/-- C1: every decoded envelope whose status field is the string 200 or the
string 400 is returned by _make_request unchanged, identical keys and
values, and nothing is raised; in particular a 400 envelope comes back as a
normal result. -/
theorem c1_soft_status_envelope_returned (env : Envelope)
    (h : env.lookup "status" = some (PyVal.str "200") ∨
         env.lookup "status" = some (PyVal.str "400")) :
    _make_request (Response.json env) = ReqOutcome.ok env := by
  rcases h with h | h <;> simp [_make_request, h]

/-- Witness for C1 on the spec test vector: the envelope with status 200 and
activeusers Bob is returned unchanged. -/
theorem c1_soft_status_envelope_returned_witness :
    _make_request (Response.json [("status", PyVal.str "200"), ("activeusers", PyVal.str "Bob")]) =
      ReqOutcome.ok [("status", PyVal.str "200"), ("activeusers", PyVal.str "Bob")] :=
  c1_soft_status_envelope_returned _ (Or.inl rfl)

/-- C2 counterexample: an envelope whose status is 500 but which has no
error field makes _make_request raise an untyped KeyError while building the
error message, not the typed ApiException the claim promises for every such
envelope. -/
theorem c2_missing_error_field_keyerror :
    _make_request (Response.json [("status", PyVal.str "500")]) = ReqOutcome.untyped "KeyError" ∧
    (_make_request (Response.json [("status", PyVal.str "500")])).isApiError = false := by
  decide

/-- C2 (amended): for an envelope whose status is neither 404, 200 nor 400,
when the envelope contains an error field _make_request raises ApiException
carrying the status value and the error value verbatim in its message, and
when the error field is missing it raises an untyped KeyError instead. -/
theorem c2_unknown_status_raises (env : Envelope) (v : PyVal)
    (hs : env.lookup "status" = some v)
    (h404 : v ≠ PyVal.str "404") (h200 : v ≠ PyVal.str "200") (h400 : v ≠ PyVal.str "400") :
    (∀ e, env.lookup "error" = some e →
      _make_request (Response.json env) =
        ReqOutcome.apiError ("Error in request. Server returned status: " ++ pyStr v
          ++ " With error: " ++ pyStr e)) ∧
    (env.lookup "error" = none → _make_request (Response.json env) = ReqOutcome.untyped "KeyError") := by
  constructor
  · intro e he
    simp [_make_request, hs, he, h404, h200, h400]
  · intro he
    simp [_make_request, hs, he, h404, h200, h400]

/-- Witness for C2 (amended) on the spec test vector: status 500 with error
boom raises ApiException carrying 500 and boom. -/
theorem c2_unknown_status_raises_witness :
    _make_request (Response.json [("status", PyVal.str "500"), ("error", PyVal.str "boom")]) =
      ReqOutcome.apiError "Error in request. Server returned status: 500 With error: boom" :=
  (c2_unknown_status_raises [("status", PyVal.str "500"), ("error", PyVal.str "boom")]
    (PyVal.str "500") rfl (by decide) (by decide) (by decide)).1 (PyVal.str "boom") rfl

/-- C3: every decoded envelope whose status field is the string 404 makes
_make_request raise the not-found ApiException and return nothing. -/
theorem c3_status_404_raises (env : Envelope)
    (h : env.lookup "status" = some (PyVal.str "404")) :
    _make_request (Response.json env) =
      ReqOutcome.apiError "404 Error. Are you sure the server has REST enabled?" := by
  simp [_make_request, h]

/-- Witness for C3 on the spec test vector: the bare status 404 envelope. -/
theorem c3_status_404_raises_witness :
    _make_request (Response.json [("status", PyVal.str "404")]) =
      ReqOutcome.apiError "404 Error. Are you sure the server has REST enabled?" :=
  c3_status_404_raises _ rfl

/-- C4: over any sequence of client calls, every URL built afterwards
carries the query parameter token equal to the token of the spec, namely the
empty string before any successful authentication and the token extracted by
the most recent successful get_token afterwards: the final parameter mapping
binds token to exactly that value and the built URL is the base plus path
plus the urlencoding of that mapping. -/
theorem c4_every_url_carries_current_token (ip : String) (post : Nat) (es : List Event)
    (args : List String) (kwargs : List (String × PyVal)) :
    (finalParams (runState (mkBuilder ip post) es).token kwargs).lookup "token" =
        some (specToken es) ∧
    (runState (mkBuilder ip post) es).get_url (args.map PyVal.str) kwargs =
      some (urljoinSimple ("http://" ++ ip ++ ":" ++ toString post)
              ("/" ++ String.intercalate "/" args)
            ++ "?" ++ urlencode (finalParams (runState (mkBuilder ip post) es).token kwargs)) := by
  obtain ⟨htok, hip, hpost⟩ := runState_fields es (mkBuilder ip post)
  constructor
  · rw [finalParams, dictSet_lookup, htok]
    rfl
  · rw [get_url_strings, hip, hpost]
    rfl

/-- C5 counterexample: on the fixed base of the spec, the builder does not
produce the URL with the token parameter first: the token entry is assigned
into the kwargs dict after the caller parameters and lands last. -/
theorem c5_token_not_first :
    rbFixed.get_url [PyVal.str "v2", PyVal.str "server", PyVal.str "status"]
        [("players", PyVal.boolean true)] ≠
      some "http://1.2.3.4:7878/v2/server/status?token=&players=True" := by
  decide

/-- C5 (amended): on host 1.2.3.4, port 7878, empty token, segments v2,
server, status and the single parameter players mapped to True, the builder
returns exactly the URL with the players parameter first and the token
parameter appended last. -/
theorem c5_url_exact_serialization :
    rbFixed.get_url [PyVal.str "v2", PyVal.str "server", PyVal.str "status"]
        [("players", PyVal.boolean true)] =
      some "http://1.2.3.4:7878/v2/server/status?players=True&token=" := by
  decide

/-- C6 counterexample: a body that is not parseable JSON does not produce
the typed ApiException at all: the decode error escapes untyped, unlike a
network failure. -/
theorem c6_nonjson_escapes_untyped :
    (_make_request Response.nonJson).isApiError = false ∧
    _make_request Response.nonJson ≠ _make_request Response.netFail := by
  decide

/-- C6 (amended): a network or connection failure during the GET raises the
typed ApiException, while a response body that fails JSON decoding raises
the untyped decode error, because res.json() sits outside the try block. -/
theorem c6_transport_vs_decode :
    _make_request Response.netFail =
      ReqOutcome.apiError "An error occurred in making the request to the server." ∧
    _make_request Response.nonJson = ReqOutcome.untyped "JSONDecodeError" :=
  ⟨rfl, rfl⟩

/-- C7 counterexample: when the body is not parseable JSON, _make_request
raises, yet get_token_status does not return False: only ApiException is
caught, so the untyped decode error propagates out. -/
theorem c7_untyped_error_propagates :
    get_token_status Response.nonJson = BoolOutcome.raised "JSONDecodeError" ∧
    get_token_status Response.nonJson ≠ BoolOutcome.value false := by
  decide

/-- C7 (amended): for every possible transport/server behaviour,
get_token_status returns True exactly when _make_request returns normally,
returns False exactly when _make_request raises the typed ApiException, and
lets any untyped error _make_request raises (the JSON decode error, a
KeyError from a missing status or error field) propagate out with its class
instead of returning False. -/
theorem c7_token_status_classification (resp : Response) :
    (∀ env, _make_request resp = ReqOutcome.ok env →
      get_token_status resp = BoolOutcome.value true) ∧
    (∀ msg, _make_request resp = ReqOutcome.apiError msg →
      get_token_status resp = BoolOutcome.value false) ∧
    (∀ exc, _make_request resp = ReqOutcome.untyped exc →
      get_token_status resp = BoolOutcome.raised exc) := by
  refine ⟨fun env h => ?_, fun msg h => ?_, fun exc h => ?_⟩ <;> simp [get_token_status, h]

/-- Witness for C7 (amended): a network failure raises ApiException inside
_make_request and the token test yields False. -/
theorem c7_token_status_classification_witness :
    get_token_status Response.netFail = BoolOutcome.value false :=
  (c7_token_status_classification Response.netFail).2.1
    "An error occurred in making the request to the server." rfl

/-- C8: for every builder, every boolean argument and every conceivable
server behaviour, set_world_bloodmoon and set_world_autosaving end in the
untyped TypeError from the string join over the path segments; the outcome
does not depend on the response, so the failure happens before any HTTP
request is issued. -/
theorem c8_bool_segment_type_error (rb : RequestBuilder) (b : Bool) (resp : Response) :
    set_world_bloodmoon rb b resp = ReqOutcome.untyped "TypeError" ∧
    set_world_autosaving rb b resp = ReqOutcome.untyped "TypeError" :=
  ⟨rfl, rfl⟩

/-- C9 (code bug): do_delete_ban forwards the enum member itself instead of
its value, so the query carries type=BanLookupType.Name rather than the
literal constant name; the three sibling methods unwrap the enum and carry
the literal id, name or ip. -/
theorem c9_delete_ban_enum_not_unwrapped :
    do_delete_ban_url rbFixed BanLookupType.Name "bob" =
      some "http://1.2.3.4:7878/v2/bans/destroy?ban=bob&type=BanLookupType.Name&token=" ∧
    get_user_info_url rbFixed UserLookupType.Name "bob" =
      some "http://1.2.3.4:7878/v2/users/read?type=name&user=bob&token=" ∧
    get_ban_information_url rbFixed BanLookupType.IP "1.1.1.1" =
      some "http://1.2.3.4:7878/v2/bans/read?type=ip&ban=1.1.1.1&token=" ∧
    set_update_user_url rbFixed "bob" UserLookupType.ID "pw" "admins" =
      some "http://1.2.3.4:7878/v2/users/update?user=bob&type=id&password=pw&group=admins&token=" := by
  refine ⟨?_, ?_, ?_, ?_⟩ <;> rfl

/-- C10: do_destroy_token leaves the whole client state, in particular the
stored session token, exactly as it was, whether the request succeeded or
raised: no automatic clearing happens. -/
theorem c10_destroy_token_keeps_session_token (rb : RequestBuilder) (resp : Response) :
    (do_destroy_token rb resp).2 = rb ∧ (do_destroy_token rb resp).2.token = rb.token := by
  cases hu : rb.get_url [PyVal.str "token", PyVal.str "destroy", rb.token] [] <;>
    simp [do_destroy_token, hu]
